import Mathlib

/-!
Verification of the Bayesian Knowledge Tracing (BKT) estimator and the
feedback-loop accuracy analytics of the `master_creator_mvp` repository
(`src/engines/engine_5_diagnostic.py` and `src/engines/engine_6_feedback.py`).

Python floats are modelled as exact rationals (`ℚ`); `math.sqrt`, whose exact
value is irrational, is modelled as an abstract function `ℚ → ℚ` constrained
only where a claim depends on it (it returns `0` exactly on `0` over the
non-negative reals).  All other arithmetic is embedded exactly.
-/

/-- Embedding of the `BayesianKnowledgeTracing` class of
`engine_5_diagnostic.py`: the four parameters stored by `__init__`.
The Python constructor performs no validation; it assigns the four
arguments to attributes unconditionally, which this structure mirrors. -/
structure BayesianKnowledgeTracing where
  p_learn : ℚ
  p_guess : ℚ
  p_slip : ℚ
  initial_mastery : ℚ
deriving DecidableEq

/-- `BayesianKnowledgeTracing.__init__` with the default arguments
`p_learn=0.3, p_guess=0.25, p_slip=0.1, initial_mastery=0.5`.
There is no range check: any rational arguments are accepted. -/
def BayesianKnowledgeTracing.init
    (p_learn p_guess p_slip initial_mastery : ℚ) :
    BayesianKnowledgeTracing :=
  ⟨p_learn, p_guess, p_slip, initial_mastery⟩

/-- `BayesianKnowledgeTracing._update_correct`:
`P(L_t | correct) = prior*(1-p_slip) / (prior*(1-p_slip) + (1-prior)*p_guess)`,
returning `prior` when the denominator is zero. -/
def BayesianKnowledgeTracing.update_correct
    (b : BayesianKnowledgeTracing) (prior : ℚ) : ℚ :=
  let numerator := prior * (1 - b.p_slip)
  let denominator := numerator + (1 - prior) * b.p_guess
  if denominator = 0 then prior else numerator / denominator

/-- `BayesianKnowledgeTracing._update_incorrect`:
`P(L_t | incorrect) = prior*p_slip / (prior*p_slip + (1-prior)*(1-p_guess))`,
returning `prior` when the denominator is zero. -/
def BayesianKnowledgeTracing.update_incorrect
    (b : BayesianKnowledgeTracing) (prior : ℚ) : ℚ :=
  let numerator := prior * b.p_slip
  let denominator := numerator + (1 - prior) * (1 - b.p_guess)
  if denominator = 0 then prior else numerator / denominator

/-- `BayesianKnowledgeTracing.update`: Bayes update on the observation,
forward learning step `posterior + (1-posterior)*p_learn`, then a final
clamp `max(0.0, min(1.0, updated_mastery))`. -/
def BayesianKnowledgeTracing.update
    (b : BayesianKnowledgeTracing)
    (prior_mastery : ℚ) (observation_correct : Bool) : ℚ :=
  let posterior :=
    if observation_correct then b.update_correct prior_mastery
    else b.update_incorrect prior_mastery
  let updated_mastery := posterior + (1 - posterior) * b.p_learn
  max 0 (min 1 updated_mastery)

/-- `BayesianKnowledgeTracing.bulk_update`: left fold of `update` over the
observation list. -/
def BayesianKnowledgeTracing.bulk_update
    (b : BayesianKnowledgeTracing)
    (prior_mastery : ℚ) (observations : List Bool) : ℚ :=
  observations.foldl (fun current_mastery obs => b.update current_mastery obs)
    prior_mastery

/-- `BayesianKnowledgeTracing.get_confidence`: confidence label from the
observation count and how extreme the mastery estimate is. -/
def BayesianKnowledgeTracing.get_confidence
    (_b : BayesianKnowledgeTracing) (mastery : ℚ) (num_observations : ℕ) :
    String :=
  if num_observations < 3 then "low"
  else if num_observations < 10 then
    if mastery < 0.3 ∨ mastery > 0.7 then "medium" else "low"
  else
    if mastery < 0.2 ∨ mastery > 0.8 then "high" else "medium"

/-- The estimator built with all default parameters, as used by
`DiagnosticEngine` (`self.bkt = BayesianKnowledgeTracing()`). -/
def default_bkt : BayesianKnowledgeTracing :=
  BayesianKnowledgeTracing.init 0.3 0.25 0.1 0.5

/-- The default `p_learn` is `0.3`. -/
@[simp] theorem default_bkt_p_learn : default_bkt.p_learn = 0.3 := rfl

/-- The default `p_guess` is `0.25`. -/
@[simp] theorem default_bkt_p_guess : default_bkt.p_guess = 0.25 := rfl

/-- The default `p_slip` is `0.1`. -/
@[simp] theorem default_bkt_p_slip : default_bkt.p_slip = 0.1 := rfl

/-- The default `initial_mastery` is `0.5`. -/
@[simp] theorem default_bkt_initial_mastery :
    default_bkt.initial_mastery = 0.5 := rfl

/-- The update formula as the specification words it: posterior by the
correct/incorrect Bayes rule with a zero-denominator fallback to the prior,
followed by `posterior + (1-posterior)*p_learn`, clamped to `[0,1]`.
Used only to compare against the embedded code. -/
def spec_update_formula
    (b : BayesianKnowledgeTracing) (prior : ℚ) (observation_correct : Bool) :
    ℚ :=
  let posterior :=
    if observation_correct then
      if prior * (1 - b.p_slip) + (1 - prior) * b.p_guess = 0 then prior
      else prior * (1 - b.p_slip) /
        (prior * (1 - b.p_slip) + (1 - prior) * b.p_guess)
    else
      if prior * b.p_slip + (1 - prior) * (1 - b.p_guess) = 0 then prior
      else prior * b.p_slip /
        (prior * b.p_slip + (1 - prior) * (1 - b.p_guess))
  max 0 (min 1 (posterior + (1 - posterior) * b.p_learn))

/-- C1: `update` computes exactly the spec's clamped posterior-plus-learning
formula, and at the default parameters `update(0.5, True)` is within 0.001
of 0.848 and `update(0.5, False)` is within 0.001 of 0.382. -/
theorem c1_update_matches_spec_formula
    (b : BayesianKnowledgeTracing) (prior : ℚ)
    (h0 : 0 ≤ prior) (h1 : prior ≤ 1) (observation_correct : Bool) :
    b.update prior observation_correct =
      spec_update_formula b prior observation_correct ∧
    |default_bkt.update 0.5 true - 0.848| ≤ 0.001 ∧
    |default_bkt.update 0.5 false - 0.382| ≤ 0.001 := by
  refine ⟨?_, ?_, ?_⟩
  · cases observation_correct <;>
      simp [BayesianKnowledgeTracing.update, spec_update_formula,
        BayesianKnowledgeTracing.update_correct,
        BayesianKnowledgeTracing.update_incorrect]
  · norm_num [BayesianKnowledgeTracing.update,
      BayesianKnowledgeTracing.update_correct, default_bkt,
      BayesianKnowledgeTracing.init, abs_le]
  · norm_num [BayesianKnowledgeTracing.update,
      BayesianKnowledgeTracing.update_incorrect, default_bkt,
      BayesianKnowledgeTracing.init, abs_le]

/-- Witness for C1 at prior `0.5`, observation `True`. -/
theorem c1_update_matches_spec_formula_witness :
    default_bkt.update 0.5 true = spec_update_formula default_bkt 0.5 true ∧
    |default_bkt.update 0.5 true - 0.848| ≤ 0.001 ∧
    |default_bkt.update 0.5 false - 0.382| ≤ 0.001 :=
  c1_update_matches_spec_formula default_bkt 0.5 (by norm_num) (by norm_num)
    true

/-- The clamp `max(0.0, min(1.0, x))` is the identity on `[0,1]`. -/
theorem clamp_eq_self {x : ℚ} (h0 : 0 ≤ x) (h1 : x ≤ 1) :
    max 0 (min 1 x) = x := by
  rw [min_eq_right h1, max_eq_right h0]

/-- `_update_correct` maps `[0,1]` into `[0,1]` when `p_slip ≤ 1` and
`0 ≤ p_guess`. -/
theorem update_correct_mem (b : BayesianKnowledgeTracing)
    (hs1 : b.p_slip ≤ 1) (hg0 : 0 ≤ b.p_guess)
    {prior : ℚ} (h0 : 0 ≤ prior) (h1 : prior ≤ 1) :
    0 ≤ b.update_correct prior ∧ b.update_correct prior ≤ 1 := by
  unfold BayesianKnowledgeTracing.update_correct
  simp only
  split_ifs with h
  · exact ⟨h0, h1⟩
  · have hnum : 0 ≤ prior * (1 - b.p_slip) := by nlinarith
    have hden0 : 0 ≤ prior * (1 - b.p_slip) + (1 - prior) * b.p_guess := by
      nlinarith
    have hden : 0 < prior * (1 - b.p_slip) + (1 - prior) * b.p_guess :=
      lt_of_le_of_ne hden0 (Ne.symm h)
    refine ⟨div_nonneg hnum hden0, ?_⟩
    rw [div_le_one hden]
    nlinarith

/-- `_update_incorrect` maps `[0,1]` into `[0,1]` when `0 ≤ p_slip` and
`p_guess ≤ 1`. -/
theorem update_incorrect_mem (b : BayesianKnowledgeTracing)
    (hs0 : 0 ≤ b.p_slip) (hg1 : b.p_guess ≤ 1)
    {prior : ℚ} (h0 : 0 ≤ prior) (h1 : prior ≤ 1) :
    0 ≤ b.update_incorrect prior ∧ b.update_incorrect prior ≤ 1 := by
  unfold BayesianKnowledgeTracing.update_incorrect
  simp only
  split_ifs with h
  · exact ⟨h0, h1⟩
  · have hnum : 0 ≤ prior * b.p_slip := by nlinarith
    have hden0 : 0 ≤ prior * b.p_slip + (1 - prior) * (1 - b.p_guess) := by
      nlinarith
    have hden : 0 < prior * b.p_slip + (1 - prior) * (1 - b.p_guess) :=
      lt_of_le_of_ne hden0 (Ne.symm h)
    refine ⟨div_nonneg hnum hden0, ?_⟩
    rw [div_le_one hden]
    nlinarith

/-- The final clamp makes `update` land in `[0,1]` for every input,
in or out of range. -/
theorem update_mem (b : BayesianKnowledgeTracing)
    (prior : ℚ) (obs : Bool) :
    0 ≤ b.update prior obs ∧ b.update prior obs ≤ 1 := by
  unfold BayesianKnowledgeTracing.update
  exact ⟨le_max_left _ _, max_le (by norm_num) (min_le_left _ _)⟩

/-- `bulk_update` keeps a prior in `[0,1]` inside `[0,1]`. -/
theorem bulk_update_mem (b : BayesianKnowledgeTracing)
    (observations : List Bool)
    {prior : ℚ} (h0 : 0 ≤ prior) (h1 : prior ≤ 1) :
    0 ≤ b.bulk_update prior observations ∧
      b.bulk_update prior observations ≤ 1 := by
  induction observations generalizing prior with
  | nil => exact ⟨h0, h1⟩
  | cons obs rest ih =>
      have h := update_mem b prior obs
      simpa [BayesianKnowledgeTracing.bulk_update] using ih h.1 h.2

/-- C4: for parameters in `[0,1]^3` and a prior in `[0,1]`, both `update`
and `bulk_update` return a value in `[0.0, 1.0]`. -/
theorem c4_update_and_bulk_update_bounded
    (b : BayesianKnowledgeTracing)
    (hl0 : 0 ≤ b.p_learn) (hl1 : b.p_learn ≤ 1)
    (hg0 : 0 ≤ b.p_guess) (hg1 : b.p_guess ≤ 1)
    (hs0 : 0 ≤ b.p_slip) (hs1 : b.p_slip ≤ 1)
    (prior : ℚ) (h0 : 0 ≤ prior) (h1 : prior ≤ 1)
    (obs : Bool) (observations : List Bool) :
    (0 ≤ b.update prior obs ∧ b.update prior obs ≤ 1) ∧
    (0 ≤ b.bulk_update prior observations ∧
      b.bulk_update prior observations ≤ 1) :=
  ⟨update_mem b prior obs, bulk_update_mem b observations h0 h1⟩

/-- Witness for C4 at the defaults, prior `0.9999`, an incorrect answer and
a two-observation list. -/
theorem c4_update_and_bulk_update_bounded_witness :
    (0 ≤ default_bkt.update 0.9999 false ∧
      default_bkt.update 0.9999 false ≤ 1) ∧
    (0 ≤ default_bkt.bulk_update 0.9999 [false, true] ∧
      default_bkt.bulk_update 0.9999 [false, true] ≤ 1) :=
  c4_update_and_bulk_update_bounded default_bkt (by norm_num) (by norm_num)
    (by norm_num) (by norm_num) (by norm_num) (by norm_num)
    0.9999 (by norm_num) (by norm_num) false [false, true]

/-- The learning step lands in `[posterior, 1]`, so after the clamp the
result is at least `p_learn` whenever the posterior is in `[0,1]`. -/
theorem learning_step_ge_p_learn (b : BayesianKnowledgeTracing)
    (hl0 : 0 ≤ b.p_learn) (hl1 : b.p_learn ≤ 1)
    {posterior : ℚ} (hp0 : 0 ≤ posterior) (hp1 : posterior ≤ 1) :
    b.p_learn ≤ max 0 (min 1 (posterior + (1 - posterior) * b.p_learn)) := by
  have hx0 : 0 ≤ posterior + (1 - posterior) * b.p_learn := by nlinarith
  have hx1 : posterior + (1 - posterior) * b.p_learn ≤ 1 := by nlinarith
  rw [clamp_eq_self hx0 hx1]
  nlinarith

/-- C10: with parameters in `[0,1]^3` and any prior in `[0,1]`, `update`
returns at least `p_learn` for either observation; in particular at the
default parameters the result never falls below `0.3`. -/
theorem c10_update_ge_p_learn
    (b : BayesianKnowledgeTracing)
    (hl0 : 0 ≤ b.p_learn) (hl1 : b.p_learn ≤ 1)
    (hg0 : 0 ≤ b.p_guess) (hg1 : b.p_guess ≤ 1)
    (hs0 : 0 ≤ b.p_slip) (hs1 : b.p_slip ≤ 1)
    (prior : ℚ) (h0 : 0 ≤ prior) (h1 : prior ≤ 1) (obs : Bool) :
    b.p_learn ≤ b.update prior obs ∧
    (0.3 : ℚ) ≤ default_bkt.update prior obs := by
  constructor
  · unfold BayesianKnowledgeTracing.update
    cases obs with
    | false =>
        have h := update_incorrect_mem b hs0 hg1 h0 h1
        simpa using learning_step_ge_p_learn b hl0 hl1 h.1 h.2
    | true =>
        have h := update_correct_mem b hs1 hg0 h0 h1
        simpa using learning_step_ge_p_learn b hl0 hl1 h.1 h.2
  · unfold BayesianKnowledgeTracing.update
    cases obs with
    | false =>
        have h : 0 ≤ default_bkt.update_incorrect prior ∧
            default_bkt.update_incorrect prior ≤ 1 :=
          update_incorrect_mem default_bkt (by norm_num) (by norm_num) h0 h1
        simpa [default_bkt, BayesianKnowledgeTracing.init] using
          learning_step_ge_p_learn default_bkt (by norm_num) (by norm_num)
            h.1 h.2
    | true =>
        have h : 0 ≤ default_bkt.update_correct prior ∧
            default_bkt.update_correct prior ≤ 1 :=
          update_correct_mem default_bkt (by norm_num) (by norm_num) h0 h1
        simpa [default_bkt, BayesianKnowledgeTracing.init] using
          learning_step_ge_p_learn default_bkt (by norm_num) (by norm_num)
            h.1 h.2

/-- Witness for C10: an incorrect answer from prior `0` still yields at
least `p_learn = 0.3` at the defaults. -/
theorem c10_update_ge_p_learn_witness :
    default_bkt.p_learn ≤ default_bkt.update 0 false ∧
    (0.3 : ℚ) ≤ default_bkt.update 0 false :=
  c10_update_ge_p_learn default_bkt (by norm_num) (by norm_num)
    (by norm_num) (by norm_num) (by norm_num) (by norm_num)
    0 (by norm_num) (by norm_num) false

/-- With `p_guess ≤ 1 - p_slip`, a correct answer never drags the posterior
below the prior. -/
theorem update_correct_ge_prior (b : BayesianKnowledgeTracing)
    (hg0 : 0 ≤ b.p_guess) (hs1 : b.p_slip ≤ 1)
    (hkey : b.p_guess ≤ 1 - b.p_slip)
    {prior : ℚ} (h0 : 0 ≤ prior) (h1 : prior ≤ 1) :
    prior ≤ b.update_correct prior := by
  unfold BayesianKnowledgeTracing.update_correct
  simp only
  split_ifs with h
  · exact le_refl prior
  · have hden0 : 0 ≤ prior * (1 - b.p_slip) + (1 - prior) * b.p_guess := by
      nlinarith
    have hden : 0 < prior * (1 - b.p_slip) + (1 - prior) * b.p_guess :=
      lt_of_le_of_ne hden0 (Ne.symm h)
    rw [le_div_iff hden]
    nlinarith [mul_nonneg (mul_nonneg h0 (sub_nonneg.mpr h1))
      (sub_nonneg.mpr hkey)]

/-- With `p_guess ≤ 1 - p_slip` and in-range parameters, one `update` on a
correct observation never decreases the mastery estimate. -/
theorem update_true_ge_prior (b : BayesianKnowledgeTracing)
    (hl0 : 0 ≤ b.p_learn) (hl1 : b.p_learn ≤ 1)
    (hg0 : 0 ≤ b.p_guess) (hs1 : b.p_slip ≤ 1)
    (hkey : b.p_guess ≤ 1 - b.p_slip)
    {prior : ℚ} (h0 : 0 ≤ prior) (h1 : prior ≤ 1) :
    prior ≤ b.update prior true := by
  have hmem := update_correct_mem b hs1 hg0 h0 h1
  have hge := update_correct_ge_prior b hg0 hs1 hkey h0 h1
  unfold BayesianKnowledgeTracing.update
  simp only [if_pos]
  set post := b.update_correct prior with hpost
  have hx0 : 0 ≤ post + (1 - post) * b.p_learn := by nlinarith [hmem.1, hmem.2]
  have hx1 : post + (1 - post) * b.p_learn ≤ 1 := by nlinarith [hmem.1, hmem.2]
  rw [clamp_eq_self hx0 hx1]
  nlinarith [hmem.2]

/-- C3 amended: with in-range parameters additionally satisfying
`p_guess ≤ 1 - p_slip` (the spec's "typical regime"), appending one extra
correct observation never decreases the result of `bulk_update`. -/
theorem c3_bulk_update_append_correct_monotone
    (b : BayesianKnowledgeTracing)
    (hl0 : 0 ≤ b.p_learn) (hl1 : b.p_learn ≤ 1)
    (hg0 : 0 ≤ b.p_guess) (hg1 : b.p_guess ≤ 1)
    (hs0 : 0 ≤ b.p_slip) (hs1 : b.p_slip ≤ 1)
    (hkey : b.p_guess ≤ 1 - b.p_slip)
    (prior : ℚ) (h0 : 0 ≤ prior) (h1 : prior ≤ 1)
    (obs : List Bool) :
    b.bulk_update prior obs ≤ b.bulk_update prior (obs ++ [true]) := by
  have hsplit : b.bulk_update prior (obs ++ [true]) =
      b.update (b.bulk_update prior obs) true := by
    unfold BayesianKnowledgeTracing.bulk_update
    rw [List.foldl_append]
    rfl
  rw [hsplit]
  have hmem := bulk_update_mem b obs h0 h1
  exact update_true_ge_prior b hl0 hl1 hg0 hs1 hkey hmem.1 hmem.2

/-- Witness for C3 (amended) at the default parameters, prior `0.5`,
base list `[false]`. -/
theorem c3_bulk_update_append_correct_monotone_witness :
    default_bkt.bulk_update 0.5 [false] ≤
      default_bkt.bulk_update 0.5 ([false] ++ [true]) :=
  c3_bulk_update_append_correct_monotone default_bkt (by norm_num)
    (by norm_num) (by norm_num) (by norm_num) (by norm_num) (by norm_num)
    (by norm_num) 0.5 (by norm_num) (by norm_num) [false]

/-- Counterexample to C3 as stated: the parameters
`p_learn = 0, p_guess = 1, p_slip = 0.5` all lie in `[0,1]`, yet from prior
`0.5` an appended correct observation strictly decreases the result of
`bulk_update` (it drops from `0.5` to `1/3`). -/
theorem c3_counterexample :
    (BayesianKnowledgeTracing.init 0 1 0.5 0.5).bulk_update 0.5
        ([] ++ [true]) <
      (BayesianKnowledgeTracing.init 0 1 0.5 0.5).bulk_update 0.5 [] := by
  norm_num [BayesianKnowledgeTracing.bulk_update,
    BayesianKnowledgeTracing.update, BayesianKnowledgeTracing.update_correct,
    BayesianKnowledgeTracing.init]

/-- C2 (code behaviour at the claim's failing input): `__init__` performs no
validation, so an out-of-range `p_learn = 1.5` is stored unchanged and the
resulting estimator is usable — `update(0.5, True)` runs and returns `1.0`
instead of any construction-time error. -/
theorem c2_constructor_accepts_out_of_range :
    (BayesianKnowledgeTracing.init 1.5 0.25 0.1 0.5).p_learn = 1.5 ∧
    (BayesianKnowledgeTracing.init 1.5 0.25 0.1 0.5).update 0.5 true = 1 := by
  constructor
  · rfl
  · norm_num [BayesianKnowledgeTracing.update,
      BayesianKnowledgeTracing.update_correct, BayesianKnowledgeTracing.init]

/-- The three tiers of `TierLevel` in `student_model/schemas.py`. -/
inductive TierLevel where
  | tier_1
  | tier_2
  | tier_3
deriving DecidableEq

/-- Tier thresholds as written in
`DiagnosticEngine._estimate_student_mastery`. -/
def DiagnosticEngine.estimate_student_mastery_tier
    (current_mastery : ℚ) : TierLevel :=
  if current_mastery ≥ 0.75 then TierLevel.tier_1
  else if current_mastery ≥ 0.45 then TierLevel.tier_2
  else TierLevel.tier_3

/-- Tier thresholds as written (a second time) in
`DiagnosticEngine.update_mastery_from_assessment`. -/
def DiagnosticEngine.update_mastery_from_assessment_tier
    (updated_mastery : ℚ) : TierLevel :=
  if updated_mastery ≥ 0.75 then TierLevel.tier_1
  else if updated_mastery ≥ 0.45 then TierLevel.tier_2
  else TierLevel.tier_3

/-- C6: the two duplicated classification sites agree everywhere, the tiers
partition the line totally and disjointly at `0.75` and `0.45`, and the four
boundary probes map as the spec says. -/
theorem c6_tier_classification :
    (∀ m : ℚ, DiagnosticEngine.estimate_student_mastery_tier m =
      DiagnosticEngine.update_mastery_from_assessment_tier m) ∧
    (∀ m : ℚ,
      (DiagnosticEngine.estimate_student_mastery_tier m = TierLevel.tier_1 ↔
        0.75 ≤ m) ∧
      (DiagnosticEngine.estimate_student_mastery_tier m = TierLevel.tier_2 ↔
        0.45 ≤ m ∧ m < 0.75) ∧
      (DiagnosticEngine.estimate_student_mastery_tier m = TierLevel.tier_3 ↔
        m < 0.45)) ∧
    DiagnosticEngine.estimate_student_mastery_tier 0.75 = TierLevel.tier_1 ∧
    DiagnosticEngine.estimate_student_mastery_tier 0.7499 = TierLevel.tier_2 ∧
    DiagnosticEngine.estimate_student_mastery_tier 0.45 = TierLevel.tier_2 ∧
    DiagnosticEngine.estimate_student_mastery_tier 0.4499 = TierLevel.tier_3
    := by
  refine ⟨fun m => rfl, fun m => ?_, ?_, ?_, ?_, ?_⟩
  · unfold DiagnosticEngine.estimate_student_mastery_tier
    split_ifs with h1 h2 <;> refine ⟨?_, ?_, ?_⟩ <;> simp_all <;>
      first
        | linarith
        | (constructor <;> linarith)
        | (intro h; linarith)
  · norm_num [DiagnosticEngine.estimate_student_mastery_tier]
  · norm_num [DiagnosticEngine.estimate_student_mastery_tier]
  · norm_num [DiagnosticEngine.estimate_student_mastery_tier]
  · norm_num [DiagnosticEngine.estimate_student_mastery_tier]

/-- C7: `get_confidence` follows the observation-count bands exactly, and
"high" is impossible with fewer than 10 observations. -/
theorem c7_get_confidence_bands
    (b : BayesianKnowledgeTracing) (m : ℚ) (n : ℕ) :
    (n < 3 → b.get_confidence m n = "low") ∧
    (3 ≤ n → n < 10 →
      b.get_confidence m n =
        if m < 0.3 ∨ 0.7 < m then "medium" else "low") ∧
    (10 ≤ n →
      b.get_confidence m n =
        if m < 0.2 ∨ 0.8 < m then "high" else "medium") ∧
    (b.get_confidence m n = "high" → 10 ≤ n) := by
  unfold BayesianKnowledgeTracing.get_confidence
  refine ⟨fun h => if_pos h, fun h3 h10 => ?_, fun h10 => ?_, fun h => ?_⟩
  · rw [if_neg (by omega), if_pos h10]
  · rw [if_neg (by omega), if_neg (by omega)]
  · by_contra hn
    push_neg at hn
    rcases Nat.lt_or_ge n 3 with hl | hl
    · rw [if_pos hl] at h
      exact absurd h (by decide)
    · rw [if_neg (by omega), if_pos (by omega)] at h
      split_ifs at h <;> exact absurd h (by decide)

/-- Witness for C7: nine observations with mastery `0.9` give "medium",
never "high". -/
theorem c7_get_confidence_bands_witness :
    default_bkt.get_confidence 0.9 9 =
      if (0.9 : ℚ) < 0.3 ∨ (0.7 : ℚ) < 0.9 then "medium" else "low" :=
  (c7_get_confidence_bands default_bkt 0.9 9).2.1 (by omega) (by omega)

/-- Python's builtin banker's rounding to an integer
(round-half-to-even). -/
def round_half_even (x : ℚ) : ℤ :=
  if Int.fract x < 1/2 then ⌊x⌋
  else if 1/2 < Int.fract x then ⌊x⌋ + 1
  else if 2 ∣ ⌊x⌋ then ⌊x⌋ else ⌊x⌋ + 1

/-- Python's `round(x, ndigits)` on the exact-rational model of floats. -/
def round_py (x : ℚ) (ndigits : ℕ) : ℚ :=
  (round_half_even (x * 10 ^ ndigits) : ℚ) / 10 ^ ndigits

/-- The `AccuracyMetrics` record of `engine_6_feedback.py` (numeric fields
modelled as exact rationals). -/
structure AccuracyMetrics where
  total_predictions : ℕ
  predictions_with_outcomes : ℕ
  rmse : ℚ
  mae : ℚ
  correlation : ℚ
  mean_predicted : ℚ
  mean_actual : ℚ
  overestimation_bias : ℚ
  tier_accuracy : ℚ
deriving DecidableEq

/-- The raw `accuracy_data` dict passed to
`FeedbackLoop._calculate_accuracy_metrics`, with each key the code reads
(`.get` with its default) modelled as a field. -/
structure AccuracyData where
  total_predictions : ℕ
  predictions_with_outcomes : ℕ
  predicted_masteries : List ℚ
  actual_masteries : List ℚ
  predicted_tiers : List String
  actual_tiers : List String

/-- `FeedbackLoop._calculate_correlation`: Pearson correlation with an early
`0.0` for fewer than 2 points and a `0.0` guard on a zero denominator.
`math.sqrt` is the abstract `sqrt` argument; note the code divides both
means by `n = len(predicted)`. -/
def FeedbackLoop.calculate_correlation
    (sqrt : ℚ → ℚ) (predicted actual : List ℚ) : ℚ :=
  if predicted.length < 2 then 0
  else
    let n : ℚ := predicted.length
    let mean_pred := predicted.sum / n
    let mean_actual := actual.sum / n
    let numerator := ((predicted.zip actual).map
      (fun pa => (pa.1 - mean_pred) * (pa.2 - mean_actual))).sum
    let denom_pred := sqrt ((predicted.map (fun p => (p - mean_pred) ^ 2)).sum)
    let denom_actual := sqrt ((actual.map (fun a => (a - mean_actual) ^ 2)).sum)
    if denom_pred = 0 ∨ denom_actual = 0 then 0
    else numerator / (denom_pred * denom_actual)

/-- `FeedbackLoop._calculate_accuracy_metrics`: all-zero report when no
prediction has an outcome, otherwise RMSE/MAE/correlation/bias/tier-accuracy
over the paired lists, each rounded to 4 digits. -/
def FeedbackLoop.calculate_accuracy_metrics
    (sqrt : ℚ → ℚ) (accuracy_data : AccuracyData) : AccuracyMetrics :=
  let total_predictions := accuracy_data.total_predictions
  let predictions_with_outcomes := accuracy_data.predictions_with_outcomes
  if predictions_with_outcomes = 0 then
    ⟨total_predictions, 0, 0, 0, 0, 0, 0, 0, 0⟩
  else
    let predicted := accuracy_data.predicted_masteries
    let actual := accuracy_data.actual_masteries
    let squared_errors := (predicted.zip actual).map
      (fun pa => (pa.1 - pa.2) ^ 2)
    let absolute_errors := (predicted.zip actual).map
      (fun pa => |pa.1 - pa.2|)
    let rmse := sqrt (squared_errors.sum / squared_errors.length)
    let mae := absolute_errors.sum / absolute_errors.length
    let correlation := FeedbackLoop.calculate_correlation sqrt predicted actual
    let mean_predicted := predicted.sum / predicted.length
    let mean_actual := actual.sum / actual.length
    let overestimation_bias := mean_predicted - mean_actual
    let predicted_tiers := accuracy_data.predicted_tiers
    let actual_tiers := accuracy_data.actual_tiers
    let tier_accuracy :=
      if predicted_tiers ≠ [] ∧ actual_tiers ≠ [] then
        (((predicted_tiers.zip actual_tiers).countP
          (fun pa => pa.1 == pa.2) : ℕ) : ℚ) / predicted_tiers.length
      else 0
    ⟨total_predictions, predictions_with_outcomes,
      round_py rmse 4, round_py mae 4, round_py correlation 4,
      round_py mean_predicted 4, round_py mean_actual 4,
      round_py overestimation_bias 4, round_py tier_accuracy 4⟩

/-- One entry of `FeedbackLoop._recommend_parameter_updates`; the free-text
`reason` field of the Python model carries no data and is omitted. -/
structure ParameterUpdate where
  parameter_name : String
  current_value : ℚ
  recommended_value : ℚ
deriving DecidableEq

/-- `FeedbackLoop._recommend_parameter_updates`: the four heuristic rules,
rule 4 firing only on a still-empty update list. -/
def FeedbackLoop.recommend_parameter_updates
    (metrics : AccuracyMetrics) : List ParameterUpdate :=
  let current_p_learn : ℚ := 0.3
  let current_p_guess : ℚ := 0.25
  let current_p_slip : ℚ := 0.1
  let updates1 : List ParameterUpdate :=
    if metrics.overestimation_bias > 0.10 then
      [⟨"p_guess", current_p_guess,
        round_py (max 0.15 (current_p_guess - 0.05)) 3⟩]
    else []
  let updates2 := updates1 ++
    (if metrics.overestimation_bias < -0.10 then
      [⟨"p_learn", current_p_learn,
        round_py (min 0.4 (current_p_learn + 0.05)) 3⟩]
    else [])
  let updates3 := updates2 ++
    (if metrics.rmse > 0.20 then
      [⟨"p_slip", current_p_slip,
        round_py (min 0.15 (current_p_slip + 0.03)) 3⟩]
    else [])
  if metrics.tier_accuracy < 0.60 ∧ updates3 = [] then
    updates3 ++ [⟨"p_guess", current_p_guess, 0.20⟩]
  else updates3

/-- `FeedbackLoop._assess_quality`: ordered quality bands over
`predictions_with_outcomes`, `rmse` and `tier_accuracy`. -/
def FeedbackLoop.assess_quality (metrics : AccuracyMetrics) : String :=
  if metrics.predictions_with_outcomes < 10 then "insufficient_data"
  else if metrics.rmse < 0.10 ∧ metrics.tier_accuracy > 0.80 then "excellent"
  else if metrics.rmse < 0.15 ∧ metrics.tier_accuracy > 0.70 then "good"
  else if metrics.rmse < 0.25 ∧ metrics.tier_accuracy > 0.55 then
    "needs_improvement"
  else "poor"

/-- Rounding is the identity on a rational that is already exact at
`ndigits` digits. -/
theorem round_py_eq_self {x : ℚ} {n : ℕ} {m : ℤ}
    (h : x * 10 ^ n = (m : ℚ)) : round_py x n = x := by
  unfold round_py round_half_even
  rw [h, Int.fract_intCast, Int.floor_intCast]
  rw [if_pos (by norm_num)]
  rw [div_eq_iff (by positivity)]
  linarith [h]

/-- C5: the recommendation list is exactly the concatenation of the four
rules — `p_guess → 0.20` on bias above `0.10`, `p_learn → 0.35` on bias
below `-0.10`, `p_slip → 0.13` on RMSE above `0.20`, and the `p_guess → 0.20`
recalibration on low tier accuracy exactly when no other rule fired; in
particular any metrics with bias `0.15` yield a `p_guess → 0.20` entry. -/
theorem c5_recommend_parameter_updates_rules (me : AccuracyMetrics) :
    FeedbackLoop.recommend_parameter_updates me =
      (if me.overestimation_bias > 0.10 then
        [(⟨"p_guess", 0.25, 0.20⟩ : ParameterUpdate)] else []) ++
      (if me.overestimation_bias < -0.10 then
        [(⟨"p_learn", 0.3, 0.35⟩ : ParameterUpdate)] else []) ++
      (if me.rmse > 0.20 then
        [(⟨"p_slip", 0.1, 0.13⟩ : ParameterUpdate)] else []) ++
      (if me.tier_accuracy < 0.60 ∧ ¬me.overestimation_bias > 0.10 ∧
          ¬me.overestimation_bias < -0.10 ∧ ¬me.rmse > 0.20 then
        [(⟨"p_guess", 0.25, 0.20⟩ : ParameterUpdate)] else []) ∧
    (me.overestimation_bias = 0.15 →
      (⟨"p_guess", 0.25, 0.20⟩ : ParameterUpdate) ∈
        FeedbackLoop.recommend_parameter_updates me) := by
  have hm1 : max 0.15 ((0.25 : ℚ) - 0.05) = 0.20 := by
    rw [max_def]; norm_num
  have hm2 : min 0.4 ((0.3 : ℚ) + 0.05) = 0.35 := by
    rw [min_def]; norm_num
  have hm3 : min 0.15 ((0.1 : ℚ) + 0.03) = 0.13 := by
    rw [min_def]; norm_num
  have hr1 : round_py (max 0.15 ((0.25 : ℚ) - 0.05)) 3 = 0.20 := by
    rw [hm1]; exact round_py_eq_self (m := 200) (by norm_num)
  have hr2 : round_py (min 0.4 ((0.3 : ℚ) + 0.05)) 3 = 0.35 := by
    rw [hm2]; exact round_py_eq_self (m := 350) (by norm_num)
  have hr3 : round_py (min 0.15 ((0.1 : ℚ) + 0.03)) 3 = 0.13 := by
    rw [hm3]; exact round_py_eq_self (m := 130) (by norm_num)
  have heq : FeedbackLoop.recommend_parameter_updates me =
      (if me.overestimation_bias > 0.10 then
        [(⟨"p_guess", 0.25, 0.20⟩ : ParameterUpdate)] else []) ++
      (if me.overestimation_bias < -0.10 then
        [(⟨"p_learn", 0.3, 0.35⟩ : ParameterUpdate)] else []) ++
      (if me.rmse > 0.20 then
        [(⟨"p_slip", 0.1, 0.13⟩ : ParameterUpdate)] else []) ++
      (if me.tier_accuracy < 0.60 ∧ ¬me.overestimation_bias > 0.10 ∧
          ¬me.overestimation_bias < -0.10 ∧ ¬me.rmse > 0.20 then
        [(⟨"p_guess", 0.25, 0.20⟩ : ParameterUpdate)] else []) := by
    simp only [FeedbackLoop.recommend_parameter_updates, hr1, hr2, hr3]
    split_ifs <;> simp_all
  refine ⟨heq, fun hb => ?_⟩
  rw [heq]
  have hgt : me.overestimation_bias > 0.10 := by rw [hb]; norm_num
  simp [hgt]

/-- Witness for C5: metrics with bias `0.15` (all other fields benign)
produce the `p_guess → 0.20` recommendation. -/
theorem c5_recommend_parameter_updates_rules_witness :
    (⟨"p_guess", 0.25, 0.20⟩ : ParameterUpdate) ∈
      FeedbackLoop.recommend_parameter_updates
        ⟨50, 50, 0.05, 0.05, 0, 0.6, 0.45, 0.15, 0.9⟩ :=
  (c5_recommend_parameter_updates_rules
    ⟨50, 50, 0.05, 0.05, 0, 0.6, 0.45, 0.15, 0.9⟩).2 rfl

/-- C9: `assess_quality` evaluates its bands in order with first match
winning, and the concrete scenario `rmse = 0.08`, `tier_accuracy = 0.85`,
`predictions_with_outcomes = 50` is "excellent". -/
theorem c9_assess_quality_first_match (me : AccuracyMetrics) :
    (me.predictions_with_outcomes < 10 →
      FeedbackLoop.assess_quality me = "insufficient_data") ∧
    (10 ≤ me.predictions_with_outcomes →
      me.rmse < 0.10 → me.tier_accuracy > 0.80 →
      FeedbackLoop.assess_quality me = "excellent") ∧
    (10 ≤ me.predictions_with_outcomes →
      ¬(me.rmse < 0.10 ∧ me.tier_accuracy > 0.80) →
      me.rmse < 0.15 → me.tier_accuracy > 0.70 →
      FeedbackLoop.assess_quality me = "good") ∧
    (10 ≤ me.predictions_with_outcomes →
      ¬(me.rmse < 0.10 ∧ me.tier_accuracy > 0.80) →
      ¬(me.rmse < 0.15 ∧ me.tier_accuracy > 0.70) →
      me.rmse < 0.25 → me.tier_accuracy > 0.55 →
      FeedbackLoop.assess_quality me = "needs_improvement") ∧
    (10 ≤ me.predictions_with_outcomes →
      ¬(me.rmse < 0.10 ∧ me.tier_accuracy > 0.80) →
      ¬(me.rmse < 0.15 ∧ me.tier_accuracy > 0.70) →
      ¬(me.rmse < 0.25 ∧ me.tier_accuracy > 0.55) →
      FeedbackLoop.assess_quality me = "poor") ∧
    (me.rmse = 0.08 → me.tier_accuracy = 0.85 →
      me.predictions_with_outcomes = 50 →
      FeedbackLoop.assess_quality me = "excellent") := by
  unfold FeedbackLoop.assess_quality
  refine ⟨fun h => if_pos h, fun hn hr ht => ?_, fun hn h1 hr ht => ?_,
    fun hn h1 h2 hr ht => ?_, fun hn h1 h2 h3 => ?_, fun hr ht hn => ?_⟩
  · rw [if_neg (by omega), if_pos ⟨hr, ht⟩]
  · rw [if_neg (by omega), if_neg h1, if_pos ⟨hr, ht⟩]
  · rw [if_neg (by omega), if_neg h1, if_neg h2, if_pos ⟨hr, ht⟩]
  · rw [if_neg (by omega), if_neg h1, if_neg h2, if_neg h3]
  · rw [if_neg (by omega), if_pos ⟨by rw [hr]; norm_num,
      by rw [ht]; norm_num⟩]

/-- Witness for C9 at the spec's concrete scenario. -/
theorem c9_assess_quality_first_match_witness :
    FeedbackLoop.assess_quality ⟨60, 50, 0.08, 0.05, 0, 0.6, 0.52, 0.08, 0.85⟩
      = "excellent" :=
  (c9_assess_quality_first_match
    ⟨60, 50, 0.08, 0.05, 0, 0.6, 0.52, 0.08, 0.85⟩).2.2.2.2.2 rfl rfl rfl

/-- Sum of a constant list. -/
theorem list_sum_of_all_eq (l : List ℚ) (c : ℚ) (h : ∀ x ∈ l, x = c) :
    l.sum = l.length * c := by
  induction l with
  | nil => simp
  | cons a t ih =>
      have ha : a = c := h a (List.mem_cons_self a t)
      have ht : t.sum = t.length * c := ih fun x hx => h x (List.mem_cons_of_mem a hx)
      simp only [List.sum_cons, List.length_cons, ha, ht]
      push_cast
      ring

/-- A concrete function meeting the sign contract of an exact square root
(`0` exactly at `0` on non-negative inputs); used only to instantiate
witnesses. -/
def sample_sqrt (x : ℚ) : ℚ := if x ≤ 0 then 0 else 1

/-- `sample_sqrt` vanishes exactly at zero on non-negative inputs, as the
true square root does. -/
theorem sample_sqrt_spec : ∀ x : ℚ, 0 ≤ x → (sample_sqrt x = 0 ↔ x = 0) := by
  intro x hx
  unfold sample_sqrt
  split_ifs with h
  · simp [le_antisymm h hx]
  · constructor
    · intro h1
      exact absurd h1 one_ne_zero
    · intro h0
      exact absurd h0.le h

/-- C8: with the prediction count at zero the metrics report is all zeros
(no division is attempted), and the Pearson correlation is `0` for fewer
than 2 points as well as whenever either paired sequence has zero variance
(all its entries equal), which zeroes the corresponding denominator. -/
theorem c8_degenerate_inputs_give_zero
    (sqrt : ℚ → ℚ)
    (hsqrt : ∀ x : ℚ, 0 ≤ x → (sqrt x = 0 ↔ x = 0))
    (d : AccuracyData) :
    (d.predictions_with_outcomes = 0 →
      FeedbackLoop.calculate_accuracy_metrics sqrt d =
        ⟨d.total_predictions, 0, 0, 0, 0, 0, 0, 0, 0⟩) ∧
    (∀ predicted actual : List ℚ, predicted.length < 2 →
      FeedbackLoop.calculate_correlation sqrt predicted actual = 0) ∧
    (∀ predicted actual : List ℚ, predicted.length = actual.length →
      ((∀ x ∈ predicted, ∀ y ∈ predicted, x = y) ∨
        (∀ x ∈ actual, ∀ y ∈ actual, x = y)) →
      FeedbackLoop.calculate_correlation sqrt predicted actual = 0) := by
  refine ⟨fun h => ?_, fun predicted actual h => ?_,
    fun predicted actual hlen hvar => ?_⟩
  · simp only [FeedbackLoop.calculate_accuracy_metrics]
    rw [if_pos h]
  · simp only [FeedbackLoop.calculate_correlation]
    rw [if_pos h]
  · by_cases hl : predicted.length < 2
    · simp only [FeedbackLoop.calculate_correlation]
      rw [if_pos hl]
    · push_neg at hl
      simp only [FeedbackLoop.calculate_correlation]
      rw [if_neg (not_lt.mpr hl)]
      rcases hvar with hp | ha
      · have hne0 : predicted ≠ [] := by
          intro hnil
          rw [hnil] at hl
          simp at hl
        have hc : ∀ x ∈ predicted, x = predicted.head hne0 :=
          fun x hx => hp x hx _ (List.head_mem hne0)
        have hcast : ((predicted.length : ℚ)) ≠ 0 := by
          have : 0 < predicted.length := by omega
          exact_mod_cast this.ne'
        have hmean : predicted.sum / (predicted.length : ℚ) =
            predicted.head hne0 := by
          rw [list_sum_of_all_eq predicted _ hc]
          field_simp
        have hS : (predicted.map
            (fun p => (p - predicted.sum / (predicted.length : ℚ)) ^ 2)).sum
            = 0 := by
          apply List.sum_eq_zero
          intro y hy
          obtain ⟨p, hpmem, rfl⟩ := List.mem_map.1 hy
          rw [hmean, hc p hpmem]
          ring
        have hS0 : (0:ℚ) ≤ (predicted.map
            (fun p => (p - predicted.sum / (predicted.length : ℚ)) ^ 2)).sum
            := by
          apply List.sum_nonneg
          intro y hy
          obtain ⟨p, hpmem, rfl⟩ := List.mem_map.1 hy
          positivity
        rw [if_pos (Or.inl ((hsqrt _ hS0).mpr hS))]
      · have hlen2 : 2 ≤ actual.length := hlen ▸ hl
        have hne0 : actual ≠ [] := by
          intro hnil
          rw [hnil] at hlen2
          simp at hlen2
        have hc : ∀ x ∈ actual, x = actual.head hne0 :=
          fun x hx => ha x hx _ (List.head_mem hne0)
        have hcast : ((predicted.length : ℚ)) ≠ 0 := by
          have : 0 < predicted.length := by omega
          exact_mod_cast this.ne'
        have hmean : actual.sum / (predicted.length : ℚ) =
            actual.head hne0 := by
          rw [list_sum_of_all_eq actual _ hc, hlen]
          field_simp
        have hS : (actual.map
            (fun a => (a - actual.sum / (predicted.length : ℚ)) ^ 2)).sum
            = 0 := by
          apply List.sum_eq_zero
          intro y hy
          obtain ⟨a, hamem, rfl⟩ := List.mem_map.1 hy
          rw [hmean, hc a hamem]
          ring
        have hS0 : (0:ℚ) ≤ (actual.map
            (fun a => (a - actual.sum / (predicted.length : ℚ)) ^ 2)).sum
            := by
          apply List.sum_nonneg
          intro y hy
          obtain ⟨a, hamem, rfl⟩ := List.mem_map.1 hy
          positivity
        rw [if_pos (Or.inr ((hsqrt _ hS0).mpr hS))]

/-- Witness for C8: empty data with zero outcome count, a one-point
correlation, and a two-point zero-variance correlation. -/
theorem c8_degenerate_inputs_give_zero_witness :
    FeedbackLoop.calculate_accuracy_metrics sample_sqrt ⟨7, 0, [], [], [], []⟩
      = ⟨7, 0, 0, 0, 0, 0, 0, 0, 0⟩ ∧
    FeedbackLoop.calculate_correlation sample_sqrt [0.5] [0.3] = 0 ∧
    FeedbackLoop.calculate_correlation sample_sqrt [0.5, 0.5] [0.2, 0.6] = 0
    := by
  have h := c8_degenerate_inputs_give_zero sample_sqrt sample_sqrt_spec
    ⟨7, 0, [], [], [], []⟩
  refine ⟨h.1 rfl, h.2.1 [0.5] [0.3] (by simp),
    h.2.2 [0.5, 0.5] [0.2, 0.6] rfl (Or.inl ?_)⟩
  intro x hx y hy
  simp at hx hy
  rw [hx, hy]
